import Mathlib

set_option linter.unusedVariables false

/-!
Shallow embedding of `pe4.py`: a program that searches an encyclopedia
service for topics, fetches each topic page and its reference list
(sequentially and/or through a thread pool), normalises every outcome into a
uniform result record, and saves the concatenated records as one JSON file.

The remote collaborator (`wikipedia.page`) is modelled as an oracle mapping a
topic to either a `(title, references)` pair or an exception; Python
exceptions are made explicit with `Except PyExc`.  File-system effects are
modelled by threading an explicit `FS` state through the sink.  Thread-pool
execution is modelled by its observable semantics: one task per topic whose
result depends only on the topic and the oracle, with the runner iterating
the future-to-topic dictionary in insertion (= submission) order, as Python
dict iteration does.
-/

/-- A file-system path, as its list of components. -/
abbrev DirPath := List String

/-- The exceptions the remote collaborator can raise inside the Fetch Unit
try-block: `wikipedia.exceptions.PageError`,
`wikipedia.exceptions.DisambiguationError` (carrying its `options` list), or
any other `Exception`.  Each constructor carries the string Python `str()`
would render for it. -/
inductive PyExc where
  | pageError (msg : String)
  | disambiguationError (options : List String) (msg : String)
  | otherExc (msg : String)
  deriving DecidableEq

/-- Python `str()` of an exception value. -/
def pyStr : PyExc → String
  | PyExc.pageError msg => msg
  | PyExc.disambiguationError _ msg => msg
  | PyExc.otherExc msg => msg

/-- Python `str()` of a list of strings, as the f-string renders
`e.options`: elements in single quotes, comma-separated, in brackets. -/
def pyListStr (xs : List String) : String :=
  "[" ++ String.intercalate ", " (xs.map (fun s => "\x27" ++ s ++ "\x27")) ++ "]"

/-- The result dict built by `download_and_save_references`: either the
success variant with keys `topic`, `page_title`, `references`,
`status`="success", or the failure variant with keys `topic`, `error`,
`status`="error". -/
inductive ResultRecord where
  | success (topic : String) (page_title : String) (references : List String)
  | error (topic : String) (error_msg : String)
  deriving DecidableEq

/-- The `topic` field of a result record. -/
def ResultRecord.topic : ResultRecord → String
  | ResultRecord.success t _ _ => t
  | ResultRecord.error t _ => t

/-- The `status` field of a result record. -/
def ResultRecord.status : ResultRecord → String
  | ResultRecord.success _ _ _ => "success"
  | ResultRecord.error _ _ => "error"

/-- The remote collaborator: `wikipedia.page(topic, auto_suggest=False)`
maps a topic to a `(canonical title, reference list)` pair or raises. -/
abbrev PageOracle := String → Except PyExc (String × List String)

/-- Embeds `download_and_save_references` (src/pe4.py lines 40-60).  The
try-block calls the collaborator; the three except-handlers are tried in
source order: `PageError`, then `DisambiguationError` (whose message renders
`e.options`), then the catch-all `Exception` (whose message renders
`str(e)`).  `output_dir` is accepted but unused, as in the source. -/
def download_and_save_references (page : PageOracle) (topic : String) (output_dir : DirPath) :
    Except PyExc ResultRecord :=
  match page topic with
  | Except.ok (page_title, references) =>
      Except.ok (ResultRecord.success topic page_title references)
  | Except.error (PyExc.pageError _) =>
      Except.ok (ResultRecord.error topic "PageError: Could not find page.")
  | Except.error (PyExc.disambiguationError options _) =>
      Except.ok (ResultRecord.error topic
        ("DisambiguationError: Options are: " ++ pyListStr options))
  | Except.error (PyExc.otherExc msg) =>
      Except.ok (ResultRecord.error topic ("An unexpected error occurred: " ++ msg))

/-- The record `download_and_save_references` produces (it always returns
one; the error arm is unreachable and maps an escaped exception to the
record the concurrent runner would build for it). -/
def fetch_record (page : PageOracle) (topic : String) (output_dir : DirPath) : ResultRecord :=
  match download_and_save_references page topic output_dir with
  | Except.ok r => r
  | Except.error e => ResultRecord.error topic (pyStr e)

/-- File-system state: the set of existing directories and the written
files, each file being `(directory, filename, serialized records)`. -/
structure FS where
  dirs : List DirPath
  files : List (DirPath × String × List ResultRecord)
  deriving DecidableEq

/-- `download_and_save_references` again, with the ambient file-system state
made explicit so that its frame can be stated: the body performs only the
one remote call and touches no file, so the state passes through every
branch unchanged. -/
def download_and_save_references_st (page : PageOracle) (topic : String) (output_dir : DirPath)
    (fs : FS) : Except PyExc (ResultRecord × FS) :=
  match page topic with
  | Except.ok (page_title, references) =>
      Except.ok (ResultRecord.success topic page_title references, fs)
  | Except.error (PyExc.pageError _) =>
      Except.ok (ResultRecord.error topic "PageError: Could not find page.", fs)
  | Except.error (PyExc.disambiguationError options _) =>
      Except.ok (ResultRecord.error topic
        ("DisambiguationError: Options are: " ++ pyListStr options), fs)
  | Except.error (PyExc.otherExc msg) =>
      Except.ok (ResultRecord.error topic ("An unexpected error occurred: " ++ msg), fs)

/-- Embeds `run_sequential_download` (src/pe4.py lines 62-79): iterate the
topics in order, call the Fetch Unit on each, append each result.  An
exception escaping the Fetch Unit would propagate out of the loop, hence
the `Except` result type. -/
def run_sequential_download (page : PageOracle) (topics : List String) (output_dir : DirPath) :
    Except PyExc (List ResultRecord) :=
  match topics with
  | [] => Except.ok []
  | topic :: rest =>
    match download_and_save_references page topic output_dir with
    | Except.error e => Except.error e
    | Except.ok result =>
      match run_sequential_download page rest output_dir with
      | Except.error e => Except.error e
      | Except.ok tail => Except.ok (result :: tail)

/-- Embeds the `for future in future_to_topic` loop of
`run_concurrent_download` (src/pe4.py lines 93-104): futures are iterated in
dictionary insertion order; `future.result()` either returns the task value
or re-raises the task exception, in which case the except-branch appends
`topic, str(exc), status="error"` instead of crashing the pool. -/
def collect_future_results (future_to_topic : List (Except PyExc ResultRecord × String)) :
    List ResultRecord :=
  future_to_topic.map (fun ft =>
    match ft.1 with
    | Except.ok result => result
    | Except.error exc => ResultRecord.error ft.2 (pyStr exc))

/-- Embeds `run_concurrent_download` (src/pe4.py lines 81-109): one task per
topic is submitted to the pool (each task computes
`download_and_save_references(topic, output_dir)`); the future-to-topic
dictionary keeps one entry per submitted future in submission order, and the
collection loop drains it.  `max_workers` bounds parallelism only and does
not affect which records are produced. -/
def run_concurrent_download (page : PageOracle) (topics : List String) (output_dir : DirPath)
    (max_workers : Nat) : List ResultRecord :=
  collect_future_results
    (topics.map (fun topic => (download_and_save_references page topic output_dir, topic)))

/-- All non-empty path component chains leading to a path: its parents and
the path itself. -/
def dirParentChain : DirPath → List DirPath
  | [] => []
  | c :: rest => [c] :: (dirParentChain rest).map (fun p => c :: p)

/-- Modelled from the spec and the Python library contract of
`os.makedirs(output_dir, exist_ok=True)` (the library call the sink relies
on, not code of this repository): creates the directory and any missing
parents; with `exist_ok` set it never raises for an existing directory,
without it an existing directory raises `FileExistsError`. -/
def os_makedirs (fs : FS) (path : DirPath) (exist_ok : Bool) : Except PyExc FS :=
  if path ∈ fs.dirs ∧ exist_ok = false then
    Except.error (PyExc.otherExc "FileExistsError")
  else
    Except.ok { fs with dirs := dirParentChain path ++ fs.dirs }

/-- What the sink hands back: the file-system state afterwards and the
I/O-error message it printed, if the write failed. -/
structure SinkOutcome where
  fs : FS
  write_error : Option String
  deriving DecidableEq

/-- Embeds `save_results_to_json` (src/pe4.py lines 111-120).  `writeErr`
is the environment's behaviour of the `open`/`write` step: `none` means the
write succeeds, `some e` means it raises `IOError e`.  The `os.makedirs`
call sits outside the try-block, so its exception would propagate; the
write sits inside `try/except IOError`, so its failure is reported and the
function returns normally. -/
def save_results_to_json (results : List ResultRecord) (output_dir : DirPath) (filename : String)
    (fs : FS) (writeErr : Option String) : Except PyExc SinkOutcome :=
  match os_makedirs fs output_dir true with
  | Except.error e => Except.error e
  | Except.ok fs1 =>
    match writeErr with
    | none =>
        Except.ok { fs := { fs1 with files := (output_dir, filename, results) :: fs1.files },
                    write_error := none }
    | some e =>
        Except.ok { fs := fs1, write_error := some e }

/-- The `--mode` command line choice. -/
inductive Mode where
  | sequential
  | concurrent
  | both
  deriving DecidableEq

/-- How a run of `main` ends: a fatal search error (diagnostic printed,
early return), the empty-search early return, or normal completion carrying
the records handed to the sink and the sink's reported write error. -/
inductive MainResult where
  | searchError (msg : String)
  | noTopics
  | completed (records : List ResultRecord) (write_error : Option String)
  deriving DecidableEq

/-- Embeds `main` (src/pe4.py lines 122-158).  `search` is the outcome of
`wikipedia.search(args.query)`; a raised search exception is caught and ends
the run with a diagnostic; an empty topic list ends the run before any
fetch; otherwise the selected runners execute, their record lists are
concatenated in sequential-then-concurrent order, and the sink is called
once.  The final file-system state is returned alongside the outcome. -/
def pe4_main (search : Except PyExc (List String)) (page : PageOracle) (mode : Mode)
    (output_dir : DirPath) (max_workers : Nat) (fs : FS) (writeErr : Option String) :
    Except PyExc (MainResult × FS) :=
  match search with
  | Except.error e => Except.ok (MainResult.searchError (pyStr e), fs)
  | Except.ok search_topics =>
    if search_topics.isEmpty then Except.ok (MainResult.noTopics, fs)
    else
      match (if mode ∈ [Mode.sequential, Mode.both] then
               run_sequential_download page search_topics output_dir
             else Except.ok []) with
      | Except.error e => Except.error e
      | Except.ok seq_data =>
        let conc_data := if mode ∈ [Mode.concurrent, Mode.both] then
            run_concurrent_download page search_topics output_dir max_workers
          else []
        let all_downloaded_data := seq_data ++ conc_data
        match save_results_to_json all_downloaded_data output_dir
            "wikipedia_references.json" fs writeErr with
        | Except.error e => Except.error e
        | Except.ok sink =>
            Except.ok (MainResult.completed all_downloaded_data sink.write_error, sink.fs)

/-- A collaborator that resolves every topic successfully. -/
def pageFound : PageOracle := fun _ => Except.ok ("Alan Turing", ["https://a.com"])

/-- A collaborator that raises a disambiguation error on every topic. -/
def pageAmbiguous : PageOracle :=
  fun _ => Except.error (PyExc.disambiguationError ["A", "B"] "may refer to")

/-! ## Helper lemmas -/

/-- The Fetch Unit computes `fetch_record` and always lands in the `ok`
branch: every except-handler returns, none re-raises. -/
theorem download_eq_fetch (page : PageOracle) (topic : String) (dir : DirPath) :
    download_and_save_references page topic dir = Except.ok (fetch_record page topic dir) := by
  cases h : page topic with
  | ok v =>
    cases v with
    | mk title refs => simp [download_and_save_references, fetch_record, h]
  | error e =>
    cases e <;> simp [download_and_save_references, fetch_record, h]

/-- The record the Fetch Unit builds always carries the submitted topic. -/
theorem fetch_record_topic (page : PageOracle) (topic : String) (dir : DirPath) :
    (fetch_record page topic dir).topic = topic := by
  cases h : page topic with
  | ok v =>
    cases v with
    | mk title refs =>
      simp [fetch_record, download_and_save_references, h, ResultRecord.topic]
  | error e =>
    cases e <;>
      simp [fetch_record, download_and_save_references, h, ResultRecord.topic]

/-- The sequential runner succeeds and returns one `fetch_record` per input
topic, in input order. -/
theorem run_sequential_eq (page : PageOracle) (dir : DirPath) :
    ∀ topics : List String,
      run_sequential_download page topics dir =
        Except.ok (topics.map (fun t => fetch_record page t dir))
  | [] => rfl
  | t :: rest => by
    simp [run_sequential_download, download_eq_fetch page t dir,
      run_sequential_eq page dir rest]

/-- The concurrent runner returns one `fetch_record` per input topic, in
submission order. -/
theorem run_concurrent_eq (page : PageOracle) (dir : DirPath) (w : Nat) :
    ∀ topics : List String,
      run_concurrent_download page topics dir w =
        topics.map (fun t => fetch_record page t dir)
  | [] => rfl
  | t :: rest => by
    have ih := run_concurrent_eq page dir w rest
    simp only [run_concurrent_download, collect_future_results, List.map_cons,
      List.map_map] at ih ⊢
    rw [download_eq_fetch page t dir]
    exact congrArg (fun l => fetch_record page t dir :: l) ih

/-- A non-empty path occurs in its own parent chain. -/
theorem mem_dirParentChain_self : ∀ p : DirPath, p ≠ [] → p ∈ dirParentChain p
  | [], h => absurd rfl h
  | [c], _ => by simp [dirParentChain]
  | c :: d :: rest, _ => by
    have ih := mem_dirParentChain_self (d :: rest) (by simp)
    have hmap : c :: d :: rest ∈ (dirParentChain (d :: rest)).map (fun p => c :: p) :=
      List.mem_map.mpr ⟨d :: rest, ih, rfl⟩
    rw [dirParentChain]
    exact List.mem_cons_of_mem _ hmap

/-- With `exist_ok` set, `os.makedirs` never raises: it returns the state
extended with the directory and all its parents. -/
theorem os_makedirs_exist_ok (fs : FS) (dir : DirPath) :
    os_makedirs fs dir true = Except.ok { fs with dirs := dirParentChain dir ++ fs.dirs } := by
  simp [os_makedirs]

/-- A successful sink run: directory chain created, file written once. -/
theorem save_results_ok (results : List ResultRecord) (dir : DirPath) (fname : String)
    (fs : FS) :
    save_results_to_json results dir fname fs none =
      Except.ok { fs := { dirs := dirParentChain dir ++ fs.dirs,
                          files := (dir, fname, results) :: fs.files },
                  write_error := none } := by
  simp [save_results_to_json, os_makedirs_exist_ok]

/-- A sink run whose write raises `IOError`: the error is reported, no file
is recorded, and the function still returns normally. -/
theorem save_results_ioerror (results : List ResultRecord) (dir : DirPath) (fname : String)
    (fs : FS) (e : String) :
    save_results_to_json results dir fname fs (some e) =
      Except.ok { fs := { dirs := dirParentChain dir ++ fs.dirs, files := fs.files },
                  write_error := some e } := by
  simp [save_results_to_json, os_makedirs_exist_ok]

/-- The stateful Fetch Unit embedding returns the same record as the pure
one and passes the file-system state through unchanged; the record does not
depend on the output directory. -/
theorem download_st_eq (page : PageOracle) (topic : String) (dir dir2 : DirPath) (fs : FS) :
    download_and_save_references_st page topic dir fs =
      Except.ok (fetch_record page topic dir2, fs) := by
  cases h : page topic with
  | ok v =>
    cases v with
    | mk title refs =>
      simp [download_and_save_references_st, fetch_record, download_and_save_references, h]
  | error e =>
    cases e <;>
      simp [download_and_save_references_st, fetch_record, download_and_save_references, h]

/-! ## Claims -/

/-- Claim C1: for every topic identifier and every behaviour of the remote
collaborator (unambiguous resolution, page-not-found, disambiguation, or any
other exception), `download_and_save_references` returns exactly one result
record and never raises or propagates an exception to its caller. -/
theorem fetch_unit_no_throw (page : PageOracle) (topic : String) (dir : DirPath) :
    ∃! r : ResultRecord, download_and_save_references page topic dir = Except.ok r :=
  ⟨fetch_record page topic dir, download_eq_fetch page topic dir, fun y hy =>
    Except.ok.inj (hy.symm.trans (download_eq_fetch page topic dir))⟩

/-- Claim C2: the Fetch Unit maps each collaborator outcome to the
corresponding record: success with the canonical title and untouched
reference list; page-not-found to the fixed `PageError` message;
disambiguation to a message rendering the candidate list; any other
exception to a message carrying its stringified cause; and error records
carry status "error" and the submitted topic, success records status
"success" and the submitted topic. -/
theorem fetch_unit_outcome_mapping (page : PageOracle) (topic : String) (dir : DirPath) :
    (∀ title refs, page topic = Except.ok (title, refs) →
      download_and_save_references page topic dir =
        Except.ok (ResultRecord.success topic title refs)) ∧
    (∀ m, page topic = Except.error (PyExc.pageError m) →
      download_and_save_references page topic dir =
        Except.ok (ResultRecord.error topic "PageError: Could not find page.")) ∧
    (∀ opts m, page topic = Except.error (PyExc.disambiguationError opts m) →
      download_and_save_references page topic dir =
        Except.ok (ResultRecord.error topic
          ("DisambiguationError: Options are: " ++ pyListStr opts))) ∧
    (∀ m, page topic = Except.error (PyExc.otherExc m) →
      download_and_save_references page topic dir =
        Except.ok (ResultRecord.error topic ("An unexpected error occurred: " ++ m))) ∧
    (∀ t msg, (ResultRecord.error t msg).status = "error" ∧
      (ResultRecord.error t msg).topic = t) ∧
    (∀ t title refs, (ResultRecord.success t title refs).status = "success" ∧
      (ResultRecord.success t title refs).topic = t) := by
  refine ⟨?_, ?_, ?_, ?_, ?_, ?_⟩
  · intro title refs h; simp [download_and_save_references, h]
  · intro m h; simp [download_and_save_references, h]
  · intro opts m h; simp [download_and_save_references, h]
  · intro m h; simp [download_and_save_references, h]
  · intro t msg; exact ⟨rfl, rfl⟩
  · intro t title refs; exact ⟨rfl, rfl⟩

/-- Witness for C2 at a concrete disambiguation outcome. -/
theorem fetch_unit_outcome_mapping_witness :
    download_and_save_references pageAmbiguous "Topic" [] =
      Except.ok (ResultRecord.error "Topic"
        ("DisambiguationError: Options are: " ++ pyListStr ["A", "B"])) :=
  (fetch_unit_outcome_mapping pageAmbiguous "Topic" []).2.2.1 ["A", "B"] "may refer to" rfl

/-- Claim C3: for every topic sequence, `run_sequential_download` returns a
record sequence of the same length, with exactly one record per input topic,
at the same index as its topic (no drops, no duplicates). -/
theorem sequential_one_record_per_topic (page : PageOracle) (topics : List String)
    (dir : DirPath) :
    ∃ rs : List ResultRecord,
      run_sequential_download page topics dir = Except.ok rs ∧
      rs.length = topics.length ∧
      ∀ i t, topics.get? i = some t →
        rs.get? i = some (fetch_record page t dir) ∧
          (fetch_record page t dir).topic = t := by
  refine ⟨topics.map (fun t => fetch_record page t dir),
    run_sequential_eq page dir topics, by simp, ?_⟩
  intro i t ht
  refine ⟨?_, fetch_record_topic page t dir⟩
  rw [List.get?_map, ht]
  rfl

/-- Witness for C3 at a concrete topic list. -/
theorem sequential_one_record_per_topic_witness :
    ∃ rs : List ResultRecord,
      run_sequential_download pageFound ["Alan Turing"] [] = Except.ok rs ∧
      rs.length = (["Alan Turing"] : List String).length ∧
      ∀ i t, (["Alan Turing"] : List String).get? i = some t →
        rs.get? i = some (fetch_record pageFound t []) ∧
          (fetch_record pageFound t []).topic = t :=
  sequential_one_record_per_topic pageFound ["Alan Turing"] []

/-- Claim C4: for every non-empty topic sequence and pool size at least one,
`run_concurrent_download` returns as many records as topics, and the
multiset of topic fields of the output equals the multiset of input
topics. -/
theorem concurrent_length_and_topic_multiset (page : PageOracle) (topics : List String)
    (dir : DirPath) (w : Nat) (hne : topics ≠ []) (hw : 1 ≤ w) :
    (run_concurrent_download page topics dir w).length = topics.length ∧
    Multiset.ofList ((run_concurrent_download page topics dir w).map ResultRecord.topic) =
      Multiset.ofList topics := by
  rw [run_concurrent_eq]
  refine ⟨by simp, ?_⟩
  rw [List.map_map]
  refine congrArg Multiset.ofList ?_
  have h1 : ∀ t ∈ topics, (ResultRecord.topic ∘ fun t => fetch_record page t dir) t = t :=
    fun t _ => fetch_record_topic page t dir
  calc topics.map (ResultRecord.topic ∘ fun t => fetch_record page t dir)
      = topics.map id := List.map_congr_left h1
    _ = topics := List.map_id topics

/-- Witness for C4 at a concrete topic list and pool size. -/
theorem concurrent_length_and_topic_multiset_witness :
    ((["Alan Turing", "Turing Award"] : List String) ≠ [] ∧ (1 : Nat) ≤ 5) ∧
    ((run_concurrent_download pageFound ["Alan Turing", "Turing Award"] ["out"] 5).length =
        (["Alan Turing", "Turing Award"] : List String).length ∧
      Multiset.ofList
          ((run_concurrent_download pageFound ["Alan Turing", "Turing Award"] ["out"] 5).map
            ResultRecord.topic) =
        Multiset.ofList ["Alan Turing", "Turing Award"]) :=
  ⟨⟨by decide, by decide⟩,
    concurrent_length_and_topic_multiset pageFound ["Alan Turing", "Turing Award"] ["out"] 5
      (by decide) (by decide)⟩

/-- Claim C5: if a submitted task's future re-raises an exception that
escaped the Fetch Unit, the collection loop still produces exactly one
failure record for that topic, at that task's position, with the stringified
exception as message and status "error" — the topic is neither lost nor
duplicated and the loop does not crash. -/
theorem concurrent_defensive_failure_record
    (pairs : List (Except PyExc ResultRecord × String)) (i : Nat) (exc : PyExc)
    (topic : String) (h : pairs.get? i = some (Except.error exc, topic)) :
    (collect_future_results pairs).length = pairs.length ∧
    (collect_future_results pairs).get? i =
      some (ResultRecord.error topic (pyStr exc)) ∧
    (ResultRecord.error topic (pyStr exc)).status = "error" ∧
    (ResultRecord.error topic (pyStr exc)).topic = topic := by
  refine ⟨by simp [collect_future_results], ?_, rfl, rfl⟩
  rw [collect_future_results, List.get?_map, h]
  rfl

/-- Witness for C5 at a concrete escaped exception. -/
theorem concurrent_defensive_failure_record_witness :
    (collect_future_results [(Except.error (PyExc.otherExc "boom"), "t")]).length =
      ([(Except.error (PyExc.otherExc "boom"), "t")] :
        List (Except PyExc ResultRecord × String)).length ∧
    (collect_future_results [(Except.error (PyExc.otherExc "boom"), "t")]).get? 0 =
      some (ResultRecord.error "t" (pyStr (PyExc.otherExc "boom"))) ∧
    (ResultRecord.error "t" (pyStr (PyExc.otherExc "boom"))).status = "error" ∧
    (ResultRecord.error "t" (pyStr (PyExc.otherExc "boom"))).topic = "t" :=
  concurrent_defensive_failure_record [(Except.error (PyExc.otherExc "boom"), "t")] 0
    (PyExc.otherExc "boom") "t" rfl

/-- Claim C6: when the initial search returns an empty topic sequence, the
program ends cleanly with the empty-search outcome: no fetch is invoked (the
result is the same for every collaborator), no records are produced, and the
file system is returned untouched. -/
theorem empty_search_clean_exit (page : PageOracle) (mode : Mode) (dir : DirPath)
    (w : Nat) (fs : FS) (writeErr : Option String) :
    pe4_main (Except.ok []) page mode dir w fs writeErr =
      Except.ok (MainResult.noTopics, fs) := rfl

/-- Claim C7: in mode "both" with a non-empty search result, the run
completes normally and saves, exactly once, the sequential record sequence
followed by the concurrent record sequence — twice as many records as
topics, with no deduplication across modes. -/
theorem both_mode_concatenation (page : PageOracle) (topics : List String) (dir : DirPath)
    (w : Nat) (fs : FS) (hne : topics ≠ []) :
    ∃ recs : List ResultRecord,
      run_sequential_download page topics dir = Except.ok recs ∧
      run_concurrent_download page topics dir w = recs ∧
      pe4_main (Except.ok topics) page Mode.both dir w fs none =
        Except.ok (MainResult.completed (recs ++ recs) none,
          { dirs := dirParentChain dir ++ fs.dirs,
            files := (dir, "wikipedia_references.json", recs ++ recs) :: fs.files }) ∧
      (recs ++ recs).length = 2 * topics.length := by
  refine ⟨topics.map (fun t => fetch_record page t dir),
    run_sequential_eq page dir topics, run_concurrent_eq page dir w topics, ?_, ?_⟩
  · have hempty : topics.isEmpty = false := by
      cases topics with
      | nil => exact absurd rfl hne
      | cons a l => rfl
    simp [pe4_main, hempty, run_sequential_eq page dir topics,
      run_concurrent_eq page dir w topics, save_results_ok]
  · simp [two_mul]

/-- Witness for C7 at a concrete topic list. -/
theorem both_mode_concatenation_witness :
    ∃ recs : List ResultRecord,
      run_sequential_download pageFound ["a", "b"] ["out"] = Except.ok recs ∧
      run_concurrent_download pageFound ["a", "b"] ["out"] 5 = recs ∧
      pe4_main (Except.ok ["a", "b"]) pageFound Mode.both ["out"] 5 (FS.mk [] []) none =
        Except.ok (MainResult.completed (recs ++ recs) none,
          { dirs := dirParentChain ["out"] ++ (FS.mk [] []).dirs,
            files := (["out"], "wikipedia_references.json", recs ++ recs) ::
              (FS.mk [] []).files }) ∧
      (recs ++ recs).length = 2 * (["a", "b"] : List String).length :=
  both_mode_concatenation pageFound ["a", "b"] ["out"] 5 (FS.mk [] []) (by decide)

/-- Claim C8: the sink ensures the target directory and all its parents
exist (with no error when already present and nothing removed), and on any
I/O failure of the write it reports the failure and still returns normally
— a sink failure never aborts the run. -/
theorem sink_directory_and_write_resilience (results : List ResultRecord) (dir : DirPath)
    (fname : String) (fs : FS) (writeErr : Option String) :
    ∃ out : SinkOutcome,
      save_results_to_json results dir fname fs writeErr = Except.ok out ∧
      (∀ p, p ∈ dirParentChain dir → p ∈ out.fs.dirs) ∧
      (dir ≠ [] → dir ∈ out.fs.dirs) ∧
      (∀ d, d ∈ fs.dirs → d ∈ out.fs.dirs) ∧
      (∀ e, writeErr = some e → out.write_error = some e ∧ out.fs.files = fs.files) ∧
      (writeErr = none → out.fs.files = (dir, fname, results) :: fs.files) := by
  cases writeErr with
  | none =>
    refine ⟨_, save_results_ok results dir fname fs, ?_, ?_, ?_, ?_, ?_⟩
    · intro p hp
      exact List.mem_append_left _ hp
    · intro hne
      exact List.mem_append_left _ (mem_dirParentChain_self dir hne)
    · intro d hd
      exact List.mem_append_right _ hd
    · intro e he
      exact absurd he (Option.noConfusion)
    · intro _
      rfl
  | some e0 =>
    refine ⟨_, save_results_ioerror results dir fname fs e0, ?_, ?_, ?_, ?_, ?_⟩
    · intro p hp
      exact List.mem_append_left _ hp
    · intro hne
      exact List.mem_append_left _ (mem_dirParentChain_self dir hne)
    · intro d hd
      exact List.mem_append_right _ hd
    · intro e he
      exact ⟨by rw [Option.some.inj he], rfl⟩
    · intro h
      exact absurd h (Option.noConfusion)

/-- Witness for C8 at a concrete failing write. -/
theorem sink_directory_and_write_resilience_witness :
    ∃ out : SinkOutcome,
      save_results_to_json [] ["out"] "wikipedia_references.json" (FS.mk [] [])
          (some "disk full") = Except.ok out ∧
      (∀ p, p ∈ dirParentChain ["out"] → p ∈ out.fs.dirs) ∧
      ((["out"] : DirPath) ≠ [] → ["out"] ∈ out.fs.dirs) ∧
      (∀ d, d ∈ (FS.mk [] []).dirs → d ∈ out.fs.dirs) ∧
      (∀ e, (some "disk full" : Option String) = some e →
        out.write_error = some e ∧ out.fs.files = (FS.mk [] []).files) ∧
      ((some "disk full" : Option String) = none →
        out.fs.files = (["out"], "wikipedia_references.json", []) :: (FS.mk [] []).files) :=
  sink_directory_and_write_resilience [] ["out"] "wikipedia_references.json"
    (FS.mk [] []) (some "disk full")

/-- Claim C9: the Fetch Unit has no side effect beyond the one remote call:
with the file-system state made explicit it returns the state unchanged in
every branch (it never writes a file), and its record does not depend on the
`output_dir` argument or on the file-system state. -/
theorem fetch_unit_no_file_side_effects (page : PageOracle) (topic : String)
    (dir : DirPath) (fs : FS) :
    ∃ r : ResultRecord,
      download_and_save_references_st page topic dir fs = Except.ok (r, fs) ∧
      download_and_save_references page topic dir = Except.ok r ∧
      ∀ (dir2 : DirPath) (fs2 : FS),
        download_and_save_references_st page topic dir2 fs2 = Except.ok (r, fs2) :=
  ⟨fetch_record page topic dir, download_st_eq page topic dir dir fs,
    download_eq_fetch page topic dir,
    fun dir2 fs2 => download_st_eq page topic dir2 dir fs2⟩

/-- Claim C10: with a deterministic collaborator, the concurrent runner
returns a record sequence element-wise identical to the sequential runner's,
in input order: futures are awaited by iterating the future-to-topic
dictionary in insertion (= submission) order, so the returned sequence
preserves input order for any pool size. -/
theorem concurrent_refines_sequential (page : PageOracle) (topics : List String)
    (dir : DirPath) (w : Nat) :
    run_sequential_download page topics dir =
      Except.ok (run_concurrent_download page topics dir w) := by
  rw [run_concurrent_eq, run_sequential_eq]
